import Mathlib

/-!
Verification of the OneBookNav data model and route logic.

This file gives a shallow embedding, in Lean 4, of the parts of the
OneBookNav Flask application (`app/models.py`, `app/main/routes.py`,
`app/api/routes.py`) that the specification's testable properties talk
about, and proves or refutes each property against that embedding.

Modelling conventions:
* Database timestamps (`datetime.utcnow()`) are modelled as an explicit
  `Nat` argument `now` threaded into each mutating method; comparison of
  timestamps is `Nat` comparison.
* A table is a `List` of rows; `query.filter_by(...)`/`filter(...)` is
  `List.filter`, `order_by` is `List.mergeSort` with the corresponding
  boolean comparison, `first()`/`get(id)` is `List.find?`.
* A Python method that may raise is modelled as returning the resulting
  object state together with an `Option String` error (`none` = normal
  return); mutations that in Python happen before a raise would be
  visible in the returned state, exactly as in the source.
* `secrets.choice` (cryptographic randomness) and the standard-library
  parsers `int(...)` and `json.loads(...)` are external to the
  repository; they are passed in as function parameters, so the theorems
  hold for every behaviour of those externals.
-/

namespace OneBookNav

/-- Python `None`-able floats (`response_time`) are modelled as `Option Int`;
only assignment and frame behaviour of this field is ever claimed, so the
carrier type is irrelevant. -/
abbrev PyFloat := Int

/-- `UserRole` enum from `app/models.py`. -/
inductive UserRole where
  | user
  | admin
  | superadmin
deriving Repr, DecidableEq

/-- `LinkStatus` enum from `app/models.py`. -/
inductive LinkStatus where
  | active
  | broken
  | checking
  | unknown
deriving Repr, DecidableEq

/-- The fields of `User` relevant to permission checks. -/
structure User where
  id : Nat
  role : UserRole
deriving Repr, DecidableEq

/-- `User.is_admin`: role is admin or superadmin. -/
def User.is_admin (u : User) : Bool :=
  u.role == UserRole.admin || u.role == UserRole.superadmin

/-- A `Category` row (`app/models.py`, class `Category`). -/
structure Category where
  id : Nat
  name : String
  sort_order : Int
  is_visible : Bool
  is_public : Bool
  user_id : Nat
  parent_id : Option Nat
deriving Repr, DecidableEq

/-- `order_by(Category.sort_order)` comparison. -/
def categoryLe (a b : Category) : Bool := a.sort_order ≤ b.sort_order

/-- The category list computed by the homepage route `index`
(`app/main/routes.py` lines 26-38): authenticated users see
`is_public OR user_id == current_user.id`, further filtered by
`is_visible=True, parent_id=None`; anonymous requesters see
`is_public=True, is_visible=True, parent_id=None`; both ordered by
`sort_order`. -/
def index_categories (db : List Category) (requester : Option User) : List Category :=
  match requester with
  | some u =>
      (db.filter (fun c =>
        (c.is_public || c.user_id == u.id) && c.is_visible && c.parent_id == none)).mergeSort categoryLe
  | none =>
      (db.filter (fun c =>
        c.is_public && c.is_visible && c.parent_id == none)).mergeSort categoryLe

/-- The category list returned by `GET /api/categories`
(`app/api/routes.py`, `get_categories`): authenticated users see
`is_public OR user_id == current_user.id` with `is_visible=True`;
anonymous requesters see `is_public=True, is_visible=True`; ordered by
`sort_order`. -/
def get_categories (db : List Category) (requester : Option User) : List Category :=
  match requester with
  | some u =>
      (db.filter (fun c =>
        (c.is_public || c.user_id == u.id) && c.is_visible)).mergeSort categoryLe
  | none =>
      (db.filter (fun c => c.is_public && c.is_visible)).mergeSort categoryLe

/-- Outcome of the HTML route `category_detail`. -/
inductive MainResp where
  | notFound
  | forbiddenRedirect
  | page
deriving Repr, DecidableEq

/-- Permission denial test shared by `category_detail` and
`get_category`: `not category.is_public and (not authenticated or
(category.user_id != current_user.id and not current_user.is_admin()))`. -/
def categoryDenied (c : Category) (requester : Option User) : Bool :=
  !c.is_public &&
    (match requester with
     | none => true
     | some u => !(c.user_id == u.id) && !u.is_admin)

/-- `GET /category/<id>` (`app/main/routes.py`, `category_detail`):
`get_or_404` then the permission check; on denial, flash + redirect. -/
def category_detail (db : List Category) (requester : Option User) (category_id : Nat) :
    MainResp :=
  match db.find? (fun c => c.id == category_id) with
  | none => MainResp.notFound
  | some c => if categoryDenied c requester then MainResp.forbiddenRedirect else MainResp.page

/-- Outcome of the JSON route `get_category`. -/
inductive ApiResp where
  | notFound
  | forbidden403
  | okJson
deriving Repr, DecidableEq

/-- `GET /api/categories/<id>` (`app/api/routes.py`, `get_category`):
`get_or_404` then the permission check; on denial, JSON error with 403. -/
def get_category (db : List Category) (requester : Option User) (category_id : Nat) :
    ApiResp :=
  match db.find? (fun c => c.id == category_id) with
  | none => ApiResp.notFound
  | some c => if categoryDenied c requester then ApiResp.forbidden403 else ApiResp.okJson

/-- A `Website` row (`app/models.py`, class `Website`); the fields that
`increment_click` / `update_link_status` read or write, plus the other
scalar columns needed to state frame conditions. -/
structure Website where
  id : Nat
  title : String
  url : String
  is_active : Bool
  is_public : Bool
  is_featured : Bool
  sort_order : Int
  click_count : Nat
  last_clicked_at : Option Nat
  link_status : LinkStatus
  last_checked_at : Option Nat
  check_count : Nat
  response_time : Option PyFloat
  user_id : Nat
  category_id : Nat
deriving Repr, DecidableEq

/-- `Website.increment_click` (`app/models.py` lines 266-269):
`self.click_count += 1; self.last_clicked_at = datetime.utcnow()`. -/
def Website.increment_click (w : Website) (now : Nat) : Website :=
  { w with click_count := w.click_count + 1, last_clicked_at := some now }

/-- `Website.update_link_status` (`app/models.py` lines 287-293):
sets `link_status`, stamps `last_checked_at`, increments `check_count`,
and records `response_time` only when the argument is not `None`. -/
def Website.update_link_status (w : Website) (status : LinkStatus)
    (response_time : Option PyFloat) (now : Nat) : Website :=
  { w with
    link_status := status
    last_checked_at := some now
    check_count := w.check_count + 1
    response_time := match response_time with
      | some r => some r
      | none => w.response_time }

/-- A category seen through its `parent` relationship chain, as walked by
`Category.get_path` / `Category.can_be_parent_of`: each node carries its
`id` and, unless it is a root (`parent_id` NULL), its parent node. -/
inductive CatNode where
  | root (id : Nat)
  | child (id : Nat) (parent : CatNode)
deriving Repr, DecidableEq

/-- The node's `id` column. -/
def CatNode.cid : CatNode → Nat
  | CatNode.root i => i
  | CatNode.child i _ => i

/-- The ids of the strict ancestors of a node, nearest parent first: the
sequence of `parent.id` values visited by the `while parent:` loop. -/
def CatNode.ancestorIds : CatNode → List Nat
  | CatNode.root _ => []
  | CatNode.child _ p => p.cid :: p.ancestorIds

/-- `Category.can_be_parent_of` (`app/models.py` lines 191-201):
returns `False` if the candidate's id equals `self`'s id; otherwise walks
`self`'s parent chain and returns `False` as soon as a parent's id equals
the candidate's id; returns `True` when the walk reaches a root. -/
def CatNode.can_be_parent_of (self category : CatNode) : Bool :=
  if category.cid == self.cid then false
  else loop self category.cid
where
  /-- The `while parent:` loop, started at `self`'s parent. -/
  loop : CatNode → Nat → Bool
    | CatNode.root _, _ => true
    | CatNode.child _ p, target =>
        if p.cid == target then false else loop p target

/-- An `InvitationCode` row (`app/models.py`, class `InvitationCode`). -/
structure InvitationCode where
  id : Nat
  code : String
  is_used : Bool
  used_at : Option Nat
  expires_at : Option Nat
  creator_id : Nat
  used_by_id : Option Nat
deriving Repr, DecidableEq

/-- The code alphabet `string.ascii_uppercase + string.digits`. -/
def codeAlphabet : List Char :=
  "ABCDEFGHIJKLMNOPQRSTUVWXYZ0123456789".data

/-- `InvitationCode.generate_code` (`app/models.py` lines 379-383); the
Python signature defaults `length` to 8. `secrets.choice(alphabet)` is
external randomness, modelled by the parameter `pick`, which selects an
index into the alphabet for each of the `length` draws. The generator
consults no stored codes: its only inputs are the randomness source and
the length. -/
def InvitationCode.generate_code (pick : Nat → Fin codeAlphabet.length)
    (length : Nat) : String :=
  String.mk ((List.range length).map (fun i => codeAlphabet.get (pick i)))

/-- `InvitationCode.is_valid` (`app/models.py` lines 385-391): used codes
are invalid; codes with an expiry are invalid once `utcnow() > expires_at`
(strictly after the deadline); everything else is valid. -/
def InvitationCode.is_valid (I : InvitationCode) (now : Nat) : Bool :=
  if I.is_used then false
  else
    match I.expires_at with
    | some e => if now > e then false else true
    | none => true

/-- Result of a call to a mutating Python method that may raise: the
object's state when the call returns or propagates the exception, and
the raised message if any. -/
structure UseResult where
  state : InvitationCode
  error : Option String
deriving Repr, DecidableEq

/-- `InvitationCode.use` (`app/models.py` lines 393-400): raises
`ValueError` when `is_valid()` is false (before any mutation); otherwise
marks the code used, stamps `used_at`, and records the consumer. -/
def InvitationCode.use (I : InvitationCode) (now : Nat) (user_id : Nat) : UseResult :=
  if !(I.is_valid now) then
    { state := I, error := some "邀请码无效或已过期" }
  else
    { state :=
        { I with is_used := true, used_at := some now, used_by_id := some user_id }
      error := none }

/-- A minimal JSON value type, the codomain of the external
`json.loads`. -/
inductive JsonVal where
  | null
  | bool (b : Bool)
  | num (n : Int)
  | str (s : String)
  | arr (elems : List JsonVal)
  | obj (fields : List (String × JsonVal))

/-- A decoded Python settings value, as produced by
`SiteSettings.get_value` (the instance method): Python `None`, an `int`,
a `bool`, a decoded JSON document, or the raw string. -/
inductive PyValue where
  | pnone
  | pint (i : Int)
  | pbool (b : Bool)
  | pjson (j : JsonVal)
  | pstr (s : String)

/-- A `SiteSettings` row (`app/models.py`, class `SiteSettings`):
`value` is a nullable text column. -/
structure SiteSettings where
  id : Nat
  key : String
  value : Option String
  value_type : String
  is_public : Bool
deriving Repr, DecidableEq

/-- Python `str.lower()` restricted to the ASCII range, which covers the
alphabets compared against in `get_value`. -/
def pyLower (s : String) : String := String.mk (s.data.map Char.toLower)

/-- The instance method `SiteSettings.get_value` (`app/models.py` lines
458-473), the binding that the name `get_value` holds on the class after
the class body executes. `int(...)` and `json.loads(...)` are external
parsers passed as parameters; `intParse v = none` models `int(v)`
raising, so the whole call returns no value in that case. -/
def SiteSettings.getValueDecoded (intParse : String → Option Int)
    (jsonLoads : String → Option JsonVal) (s : SiteSettings) : Option PyValue :=
  match s.value with
  | none => some PyValue.pnone
  | some v =>
      if s.value_type == "int" then (intParse v).map PyValue.pint
      else if s.value_type == "bool" then
        some (PyValue.pbool (["true", "1", "yes", "on"].contains (pyLower v)))
      else if s.value_type == "json" then
        some (PyValue.pjson ((jsonLoads v).getD (JsonVal.obj [])))
      else some (PyValue.pstr v)

/-- The classmethod `SiteSettings.get_value(key, default)` as written at
`app/models.py` lines 439-445: look up the first row with the given key,
decode it with the instance `get_value`, and fall back to the
caller-supplied default when the key is absent. Note that in the Python
class body this classmethod is bound first and the instance method of
the same name (lines 458-473) is bound afterwards, so at run time the
name `SiteSettings.get_value` resolves to the one-argument instance
function and a two-argument call such as
`SiteSettings.get_value('registration_enabled', True)`
(`app/auth/routes.py` line 78) raises `TypeError`; this definition is the
faithful translation of the classmethod's own body, which is what the
specification describes. -/
def SiteSettings.get_value (db : List SiteSettings)
    (intParse : String → Option Int) (jsonLoads : String → Option JsonVal)
    (key : String) (default : PyValue) : Option PyValue :=
  match db.find? (fun s => s.key == key) with
  | some s => s.getValueDecoded intParse jsonLoads
  | none => some default

/-! ## Theorems -/

/-- An administrator who owns nothing: id 1, role admin. -/
def adminUser : User := { id := 1, role := UserRole.admin }

/-- A private, visible, top-level category owned by user 2. -/
def privateCat : Category :=
  { id := 10, name := "dev", sort_order := 0, is_visible := true,
    is_public := false, user_id := 2, parent_id := none }

/-- C1 fails on the code: an admin requester who does not own a private
category does not receive it in the `/api/categories` list, although the
claim's predicate (`is_public ∨ owner ∨ is_admin`) holds for them — the
list queries apply no admin special case. -/
theorem C1_counterexample :
    ¬ ((privateCat ∈ get_categories [privateCat] (some adminUser)) ↔
        (privateCat.is_public = true ∨ privateCat.user_id = adminUser.id ∨
          adminUser.is_admin = true)) := by
  intro h
  have hin : privateCat ∈ get_categories [privateCat] (some adminUser) :=
    h.mpr (Or.inr (Or.inr (by decide)))
  exact absurd (List.mem_mergeSort.mp hin) (by decide)

/-- C1 amended: a category appears in the authenticated homepage list iff
it is in the table, is public or owned by the requester, is visible, and
is top-level; in the authenticated `/api/categories` list iff it is in
the table, public or owned, and visible; anonymous requesters see only
public visible (and, on the homepage, top-level) categories. Admin role
grants no extra visibility in either list query. -/
theorem C1_category_list_membership (db : List Category) (u : User) (c : Category) :
    ((c ∈ index_categories db (some u)) ↔
       (c ∈ db ∧ (c.is_public = true ∨ c.user_id = u.id) ∧
         c.is_visible = true ∧ c.parent_id = none))
  ∧ ((c ∈ get_categories db (some u)) ↔
       (c ∈ db ∧ (c.is_public = true ∨ c.user_id = u.id) ∧ c.is_visible = true))
  ∧ ((c ∈ index_categories db none) ↔
       (c ∈ db ∧ c.is_public = true ∧ c.is_visible = true ∧ c.parent_id = none))
  ∧ ((c ∈ get_categories db none) ↔
       (c ∈ db ∧ c.is_public = true ∧ c.is_visible = true)) := by
  refine ⟨?_, ?_, ?_, ?_⟩ <;>
    simp [index_categories, get_categories, List.mem_mergeSort, List.mem_filter,
      and_assoc]

/-- C5: for an anonymous requester, a single-category fetch by id gives
not-found when no row has that id, and gives forbidden (redirect with
flash on the HTML route, HTTP 403 on the JSON route) — never not-found —
when the row exists but is not public. -/
theorem C5_anonymous_category_fetch (db : List Category) (category_id : Nat) :
    (db.find? (fun c => c.id == category_id) = none →
       category_detail db none category_id = MainResp.notFound ∧
       get_category db none category_id = ApiResp.notFound)
  ∧ (∀ c, db.find? (fun c => c.id == category_id) = some c → c.is_public = false →
       category_detail db none category_id = MainResp.forbiddenRedirect ∧
       get_category db none category_id = ApiResp.forbidden403) := by
  constructor
  · intro h
    simp [category_detail, get_category, h]
  · intro c hfind hpub
    simp [category_detail, get_category, hfind, categoryDenied, hpub]

/-- A private category with id 3, for exercising the fetch routes. -/
def privateCat3 : Category :=
  { id := 3, name := "secret", sort_order := 0, is_visible := true,
    is_public := false, user_id := 2, parent_id := none }

/-- C5 at concrete inputs: over the one-row table `[privateCat3]`, an
anonymous fetch of id 99 is not-found and an anonymous fetch of id 3 is
forbidden on both routes. -/
theorem C5_anonymous_category_fetch_witness :
    (category_detail [privateCat3] none 99 = MainResp.notFound ∧
       get_category [privateCat3] none 99 = ApiResp.notFound)
  ∧ (category_detail [privateCat3] none 3 = MainResp.forbiddenRedirect ∧
       get_category [privateCat3] none 3 = ApiResp.forbidden403) :=
  ⟨(C5_anonymous_category_fetch [privateCat3] 99).1 (by rfl),
   (C5_anonymous_category_fetch [privateCat3] 3).2 privateCat3 (by rfl) (by rfl)⟩

/-- C6: two sequential `increment_click` calls, stamped `t1` then `t2`,
raise `click_count` by exactly 2 and leave `last_clicked_at` at the
second call's timestamp. -/
theorem C6_double_increment_click (w : Website) (t1 t2 : Nat) :
    ((w.increment_click t1).increment_click t2).click_count = w.click_count + 2 ∧
    ((w.increment_click t1).increment_click t2).last_clicked_at = some t2 := by
  simp [Website.increment_click]

/-- C7: `update_link_status` sets `link_status`, stamps
`last_checked_at`, increments `check_count` by one, writes
`response_time` exactly when the argument is present, and changes no
other field. -/
theorem C7_update_link_status_frame (w : Website) (status : LinkStatus)
    (rt : Option PyFloat) (now : Nat) :
    (w.update_link_status status rt now).link_status = status ∧
    (w.update_link_status status rt now).last_checked_at = some now ∧
    (w.update_link_status status rt now).check_count = w.check_count + 1 ∧
    (∀ r, rt = some r → (w.update_link_status status rt now).response_time = some r) ∧
    (rt = none → (w.update_link_status status rt now).response_time = w.response_time) ∧
    (w.update_link_status status rt now).click_count = w.click_count ∧
    (w.update_link_status status rt now).is_active = w.is_active ∧
    (w.update_link_status status rt now).is_public = w.is_public ∧
    (w.update_link_status status rt now).url = w.url ∧
    (w.update_link_status status rt now).title = w.title ∧
    (w.update_link_status status rt now).id = w.id ∧
    (w.update_link_status status rt now).is_featured = w.is_featured ∧
    (w.update_link_status status rt now).sort_order = w.sort_order ∧
    (w.update_link_status status rt now).last_clicked_at = w.last_clicked_at ∧
    (w.update_link_status status rt now).user_id = w.user_id ∧
    (w.update_link_status status rt now).category_id = w.category_id := by
  refine ⟨rfl, rfl, rfl, ?_, ?_, rfl, rfl, rfl, rfl, rfl, rfl, rfl, rfl, rfl, rfl, rfl⟩
  · intro r hr
    simp [Website.update_link_status, hr]
  · intro hr
    simp [Website.update_link_status, hr]

/-- A concrete website row for exercising the mutators. -/
def demoSite : Website :=
  { id := 7, title := "example", url := "https://example.org", is_active := true,
    is_public := true, is_featured := false, sort_order := 0, click_count := 41,
    last_clicked_at := none, link_status := LinkStatus.unknown,
    last_checked_at := none, check_count := 2, response_time := none,
    user_id := 2, category_id := 10 }

/-- C7 at a concrete input: checking `demoSite` as broken with response
time 120 records the response time, and checking it with no measurement
leaves the stored response time in place. -/
theorem C7_update_link_status_frame_witness :
    (demoSite.update_link_status LinkStatus.broken (some 120) 55).response_time = some 120 ∧
    (demoSite.update_link_status LinkStatus.broken none 55).response_time =
      demoSite.response_time :=
  ⟨(C7_update_link_status_frame demoSite LinkStatus.broken (some 120) 55).2.2.2.1
      120 rfl,
   (C7_update_link_status_frame demoSite LinkStatus.broken none 55).2.2.2.2.1 rfl⟩

/-- The claim's validity condition for `use`, following the spec's words:
not yet used, and the current time is strictly before any expiry. -/
def useSucceedsSpecStrict (I : InvitationCode) (now : Nat) : Bool :=
  !I.is_used &&
    (match I.expires_at with
     | none => true
     | some e => now < e)

/-- An unused invitation code expiring at time 5. -/
def boundaryCode : InvitationCode :=
  { id := 1, code := "ABCD2345", is_used := false, used_at := none,
    expires_at := some 5, creator_id := 1, used_by_id := none }

/-- C2 fails on the code at the expiry boundary: at `now = 5`, exactly
the expiry instant of `boundaryCode`, `use` succeeds (the source tests
`utcnow() > expires_at`, which is false at equality) while the claim's
condition demands `now` strictly less than `expires_at`. -/
theorem C2_counterexample :
    ¬ (((boundaryCode.use 5 7).error = none) ↔
        useSucceedsSpecStrict boundaryCode 5 = true) := by
  decide

/-- C2 amended: `use(user)` succeeds iff the code is unused and the
current time does not strictly exceed any expiry (`now ≤ expires_at`,
i.e. failure requires `utcnow()` strictly after the deadline); and after
a successful use every subsequent `use` call on the resulting state
fails. -/
theorem C2_use_succeeds_iff (I : InvitationCode) (now uid : Nat) :
    (((I.use now uid).error = none) ↔
       (I.is_used = false ∧ (I.expires_at = none ∨
         ∃ e, I.expires_at = some e ∧ now ≤ e)))
  ∧ (∀ now2 uid2, (I.use now uid).error = none →
       ((I.use now uid).state.use now2 uid2).error ≠ none) := by
  constructor
  · cases hu : I.is_used with
    | true => simp [InvitationCode.use, InvitationCode.is_valid, hu]
    | false =>
        cases he : I.expires_at with
        | none => simp [InvitationCode.use, InvitationCode.is_valid, hu, he]
        | some e =>
            by_cases hlt : e < now
            · simp [InvitationCode.use, InvitationCode.is_valid, hu, he, hlt]
            · simp [InvitationCode.use, InvitationCode.is_valid, hu, he, hlt]
              all_goals omega
  · intro now2 uid2 hok
    have hv : I.is_valid now = true := by
      by_contra hv
      simp [InvitationCode.use, hv] at hok
    have hstate : (I.use now uid).state =
        { I with is_used := true, used_at := some now, used_by_id := some uid } := by
      simp [InvitationCode.use, hv]
    rw [hstate]
    simp [InvitationCode.use, InvitationCode.is_valid]

/-- C2 amended, exercised concretely: using `boundaryCode` at time 3
succeeds, and a second `use` of the resulting state always fails. -/
theorem C2_use_succeeds_iff_witness :
    ((boundaryCode.use 3 7).state.use 9 8).error ≠ none :=
  (C2_use_succeeds_iff boundaryCode 3 7).2 9 8 (by decide)

/-- The `while parent:` loop of `can_be_parent_of` returns true exactly
when the target id never occurs on the node's strict ancestor chain. -/
theorem can_be_parent_of_loop_iff (n : CatNode) (t : Nat) :
    (CatNode.can_be_parent_of.loop n t = true) ↔ t ∉ n.ancestorIds := by
  induction n with
  | root i => simp [CatNode.can_be_parent_of.loop, CatNode.ancestorIds]
  | child i p ih =>
      by_cases h : p.cid = t
      · simp [CatNode.can_be_parent_of.loop, CatNode.ancestorIds, h]
      · simp [CatNode.can_be_parent_of.loop, CatNode.ancestorIds, h, ih]
        exact fun _ ht => h ht.symm

/-- C3: `can_be_parent_of` returns true exactly when the candidate is
neither `self` itself (same id) nor among `self`'s ancestors; in
particular it returns false on self-assignment and on any ancestor of
`self`. -/
theorem C3_can_be_parent_of (self category : CatNode) :
    (self.can_be_parent_of category = true) ↔
      (category.cid ≠ self.cid ∧ category.cid ∉ self.ancestorIds) := by
  unfold CatNode.can_be_parent_of
  by_cases h : category.cid = self.cid
  · simp [h]
  · simp [h, can_be_parent_of_loop_iff]

/-- C10: when `use` raises (the code was already used or expired), the
invitation code's state — `is_used`, `used_at`, `used_by_id` and every
other field — is exactly what it was before the call. -/
theorem C10_failed_use_mutates_nothing (I : InvitationCode) (now uid : Nat)
    (h : (I.use now uid).error ≠ none) :
    (I.use now uid).state = I := by
  by_cases hv : I.is_valid now = true
  · exact absurd (by simp [InvitationCode.use, hv]) h
  · simp [InvitationCode.use, hv]

/-- An invitation code that has already been consumed. -/
def usedCode : InvitationCode :=
  { id := 2, code := "ZZZZ9999", is_used := true, used_at := some 4,
    expires_at := none, creator_id := 1, used_by_id := some 3 }

/-- C10 at a concrete input: re-using the already-used `usedCode` raises
and leaves the row unchanged. -/
theorem C10_failed_use_mutates_nothing_witness :
    (usedCode.use 9 8).state = usedCode :=
  C10_failed_use_mutates_nothing usedCode 9 8 (by decide)

/-- C8: for every behaviour of the randomness source, a code generated
with the default length is exactly 8 characters long and every character
is drawn from `[A-Z0-9]`; the generator's inputs are only the randomness
source and the length, so it consults no stored codes. -/
theorem C8_generate_code_shape (pick : Nat → Fin codeAlphabet.length) :
    (InvitationCode.generate_code pick 8).length = 8 ∧
    ∀ c ∈ (InvitationCode.generate_code pick 8).data, c ∈ codeAlphabet := by
  constructor
  · simp [InvitationCode.generate_code, String.length]
  · intro c hc
    simp only [InvitationCode.generate_code, List.mem_map, List.mem_range] at hc
    obtain ⟨i, _hi, rfl⟩ := hc
    exact List.get_mem _ _ _

/-- A degenerate randomness source that always picks the first letter. -/
def constPick : Nat → Fin codeAlphabet.length := fun _ => ⟨0, by decide⟩

/-- C8 exercised concretely: with the constant randomness source the
generated code has length 8, and its first character is in the
alphabet. -/
theorem C8_generate_code_shape_witness :
    (InvitationCode.generate_code constPick 8).length = 8 ∧ 'A' ∈ codeAlphabet :=
  ⟨(C8_generate_code_shape constPick).1,
   (C8_generate_code_shape constPick).2 'A' (by decide)⟩

/-- C4, proved of the classmethod body at `app/models.py` lines 439-445
(which the run-time name resolution shadows, see
`SiteSettings.get_value`): absent key gives the caller's default; a
present row with a stored string decodes by `value_type` — `int` as the
integer parse, `bool` as case-insensitive membership in
{"true","1","yes","on"}, `json` as a JSON parse falling back to the
empty object, anything else as the raw string; and
`get_value('registration_enabled', True)` is `True` when unset and the
stored decoded boolean when set with type `bool`. -/
theorem C4_get_value_classmethod (db : List SiteSettings)
    (intParse : String → Option Int) (jsonLoads : String → Option JsonVal)
    (key : String) (default : PyValue) :
    (db.find? (fun s => s.key == key) = none →
       SiteSettings.get_value db intParse jsonLoads key default = some default)
  ∧ (∀ s v, db.find? (fun s => s.key == key) = some s → s.value = some v →
       (s.value_type = "int" →
          SiteSettings.get_value db intParse jsonLoads key default =
            (intParse v).map PyValue.pint)
     ∧ (s.value_type = "bool" →
          SiteSettings.get_value db intParse jsonLoads key default =
            some (PyValue.pbool (["true", "1", "yes", "on"].contains (pyLower v))))
     ∧ (s.value_type = "json" →
          SiteSettings.get_value db intParse jsonLoads key default =
            some (PyValue.pjson ((jsonLoads v).getD (JsonVal.obj []))))
     ∧ (s.value_type ≠ "int" → s.value_type ≠ "bool" → s.value_type ≠ "json" →
          SiteSettings.get_value db intParse jsonLoads key default =
            some (PyValue.pstr v)))
  ∧ (db.find? (fun s => s.key == "registration_enabled") = none →
       SiteSettings.get_value db intParse jsonLoads "registration_enabled"
         (PyValue.pbool true) = some (PyValue.pbool true)) := by
  refine ⟨?_, ?_, ?_⟩
  · intro h
    simp [SiteSettings.get_value, h]
  · intro s v hf hv
    refine ⟨?_, ?_, ?_, ?_⟩
    · intro h1
      simp [SiteSettings.get_value, hf, SiteSettings.getValueDecoded, hv, h1]
    · intro h1
      simp [SiteSettings.get_value, hf, SiteSettings.getValueDecoded, hv, h1]
    · intro h1
      simp [SiteSettings.get_value, hf, SiteSettings.getValueDecoded, hv, h1]
    · intro h1 h2 h3
      simp [SiteSettings.get_value, hf, SiteSettings.getValueDecoded, hv, h1, h2, h3]
  · intro h
    simp [SiteSettings.get_value, h]

/-- The default `registration_enabled` row seeded by
`init_default_data`. -/
def regEnabledRow : SiteSettings :=
  { id := 1, key := "registration_enabled", value := some "true",
    value_type := "bool", is_public := true }

/-- C4 exercised concretely: with the seeded `registration_enabled` row
present, `get_value('registration_enabled', True)` decodes the stored
`"true"` to `True`. -/
theorem C4_get_value_classmethod_witness :
    SiteSettings.get_value [regEnabledRow] (fun _ => none) (fun _ => none)
      "registration_enabled" (PyValue.pbool true) = some (PyValue.pbool true) := by
  have h := ((C4_get_value_classmethod [regEnabledRow] (fun _ => none) (fun _ => none)
      "registration_enabled" (PyValue.pbool true)).2.1
      regEnabledRow "true" (by rfl) (by rfl)).2.1 (by rfl)
  rw [h]
  rfl

/-- C9, proved of the same classmethod body: a present row whose stored
`value` is NULL decodes to Python `None` (never the caller's default),
whatever its `value_type`. -/
theorem C9_null_value_returns_pynone (db : List SiteSettings)
    (intParse : String → Option Int) (jsonLoads : String → Option JsonVal)
    (key : String) (default : PyValue) (s : SiteSettings)
    (h1 : db.find? (fun r => r.key == key) = some s) (h2 : s.value = none) :
    SiteSettings.get_value db intParse jsonLoads key default = some PyValue.pnone := by
  simp [SiteSettings.get_value, h1, SiteSettings.getValueDecoded, h2]

/-- A row whose key exists but whose value column is NULL. -/
def nullSetting : SiteSettings :=
  { id := 2, key := "site_notice", value := none, value_type := "bool",
    is_public := true }

/-- C9 exercised concretely: looking up `site_notice` over a table whose
row has a NULL value yields Python `None`, not the supplied default. -/
theorem C9_null_value_returns_pynone_witness :
    SiteSettings.get_value [nullSetting] (fun _ => none) (fun _ => none)
      "site_notice" (PyValue.pstr "fallback") = some PyValue.pnone :=
  C9_null_value_returns_pynone [nullSetting] (fun _ => none) (fun _ => none)
    "site_notice" (PyValue.pstr "fallback") nullSetting (by rfl) (by rfl)

end OneBookNav
